import Mathlib

/-!
Verification of the `slang` FFI demo harness (src/ffi/slang.c and src/ffi/slang.h).

The C program is a single `main` function: with fewer than two `argv` entries it
prints a usage line and returns 0; otherwise it measures `argv[1]` with `strlen`,
wraps it in a `SlangString` view, calls the external `SlangParseLang` once, and
prints the argument, the returned error code (base-10 signed via the `%d` format
specifier) and the returned string (via `%s`), then returns 0.

C strings are modelled as Lean `String` values (byte length = `utf8ByteSize`);
null pointers are modelled with `Option` (`none` = NULL).  Reaching undefined
behavior (printing a NULL pointer through the `%s` specifier) is modelled by an
`Option.none` outcome.  The external callee `SlangParseLang` is a parameter of
the model, since only its prototype appears in the repository.
-/

/-- Model of C `strlen` applied to a NUL-terminated `argv` string: the number of
bytes before the terminator, i.e. the byte count of the argument (not its
character count). -/
def cstrlen (s : String) : Nat := s.utf8ByteSize

/-- Model of `typedef signed char SlangInt8` from src/ffi/slang.h: a byte-sized
signed integer, whose values lie between -128 and 127. -/
abbrev SlangInt8 := {i : Int // -128 ≤ i ∧ i ≤ 127}

/-- Model of `struct SlangString` from src/ffi/slang.h: a borrowed string view.
Field `p` is `const char *p`, modelled as the referenced bytes themselves;
field `n` is `ptrdiff_t n`, a signed pointer-sized byte count, modelled as `Int`. -/
structure SlangString where
  p : String
  n : Int
  deriving DecidableEq

/-- Model of `struct SlangParseLangResult` from src/ffi/slang.h: the tagged
result crossing the boundary.  `errcode` is the `SlangInt8` status; `tabstr`
is `char *tabstr`, a possibly-NULL owned payload, modelled as `Option String`
(`none` = NULL pointer). -/
structure SlangParseLangResult where
  errcode : SlangInt8
  tabstr  : Option String
  deriving DecidableEq

/-- The view construction at src/ffi/slang.c lines 12-14:
`size_t langCodeLen = strlen(argv[1]); SlangString langCode = {argv[1], langCodeLen};`.
The pointer field receives `argv[1]` itself (no copy) and the length field the
`strlen` byte count, converted to the signed `ptrdiff_t` field type. -/
def mkLangCode (arg1 : String) : SlangString := ⟨arg1, (cstrlen arg1 : Int)⟩

/-- Observable behavior of one run of `main`:
`calleeCalls` counts the invocations of `SlangParseLang`;
`payloadReleases` counts deallocation calls on the returned `tabstr` payload
(the source contains none, the field makes that auditable);
`outcome` is `some (stdout, exitCode)` for a defined run and `none` when the
run reaches undefined behavior. -/
structure MainBehavior where
  calleeCalls : Nat
  payloadReleases : Nat
  outcome : Option (String × Nat)
  deriving DecidableEq

/-- Model of `main` from src/ffi/slang.c, parameterized by the external callee
`SlangParseLang`.  Branches:
with `argc < 2` and `argc = 0`, `argv[0]` is NULL and printing it through `%s`
is undefined; with `argc = 1` the usage line is printed and 0 returned; with
`argc >= 2` the view over `argv[1]` is built, the callee is called once, and
the result line plus payload line are printed (`%s` on a NULL `tabstr` is
undefined), then 0 is returned.  Extra `argv` entries are never read. -/
def mainRun (argv : List String) (SlangParseLang : SlangString → SlangParseLangResult) :
    MainBehavior :=
  match argv with
  | [] => ⟨0, 0, none⟩
  | [prog] => ⟨0, 0, some ("Usage: " ++ prog ++ " <lang-code>\n", 0)⟩
  | _ :: arg1 :: _ =>
    let result := SlangParseLang (mkLangCode arg1)
    match result.tabstr with
    | none => ⟨1, 0, none⟩
    | some s =>
      ⟨1, 0, some ("SlangParseLang(\x27" ++ arg1 ++ "\x27): code = " ++
        toString result.errcode.val ++ "\n" ++ s ++ "\n", 0)⟩

/-- A mock callee answering `(errcode = 0, tabstr = "OK")` on every input. -/
def mockOk : SlangString → SlangParseLangResult := fun _ => ⟨⟨0, by decide⟩, some "OK"⟩

/-- A mock callee answering `(errcode = -1, tabstr = "")` on every input. -/
def mockErrEmpty : SlangString → SlangParseLangResult := fun _ => ⟨⟨-1, by decide⟩, some ""⟩

/-- A mock callee answering a NULL `tabstr` payload on every input. -/
def mockNull : SlangString → SlangParseLangResult := fun _ => ⟨⟨0, by decide⟩, none⟩

/-- C1: with exactly one supplied argument `x`, and the callee returning a
non-NULL payload `s`, the program prints the line
`SlangParseLang('x'): code = <errcode>` (errcode in base-10 signed decimal),
then `s` on the next line, and exits with code 0 whatever the error code is. -/
theorem mainRun_one_arg (prog x s : String)
    (SlangParseLang : SlangString → SlangParseLangResult)
    (h : (SlangParseLang (mkLangCode x)).tabstr = some s) :
    mainRun [prog, x] SlangParseLang =
      ⟨1, 0, some ("SlangParseLang(\x27" ++ x ++ "\x27): code = " ++
        toString (SlangParseLang (mkLangCode x)).errcode.val ++ "\n" ++ s ++ "\n", 0)⟩ := by
  simp only [mainRun, h]

/-- Witness for C1 at `argv = [slang, en]` with the mock callee returning
`(0, "OK")`: the exact round-trip output of the specification. -/
theorem mainRun_one_arg_witness :
    mainRun ["slang", "en"] mockOk =
      ⟨1, 0, some ("SlangParseLang(\x27en\x27): code = 0\nOK\n", 0)⟩ :=
  (mainRun_one_arg "slang" "en" "OK" mockOk rfl).trans (by decide)

/-- C2: with fewer than one supplied argument the program prints the usage line
containing the invocation name, exits with code 0, and never invokes the
callee (`calleeCalls = 0`). -/
theorem mainRun_usage (prog : String)
    (SlangParseLang : SlangString → SlangParseLangResult) :
    mainRun [prog] SlangParseLang =
      ⟨0, 0, some ("Usage: " ++ prog ++ " <lang-code>\n", 0)⟩ := rfl

/-- C3: the code never releases the returned payload.  At the concrete run
`slang en` with a callee returning the non-NULL payload `"OK"`, the number of
deallocation calls on the payload is 0, not the exactly-once release the
specification demands: the demo leaks the owned `tabstr` buffer. -/
theorem mainRun_never_releases :
    (mockOk (mkLangCode "en")).tabstr ≠ none ∧
      (mainRun ["slang", "en"] mockOk).payloadReleases = 0 := by
  exact ⟨by decide, rfl⟩

/-- C4: the `SlangString` view built from argument `x` keeps the byte length of
`x` exactly in its length field (no off-by-one, terminator excluded) and its
pointer field references the bytes of `x` themselves, uncopied. -/
theorem mkLangCode_preserves_length (x : String) :
    (mkLangCode x).p = x ∧ (mkLangCode x).n = (x.utf8ByteSize : Int) := ⟨rfl, rfl⟩

/-- C5: when the callee returns payload `s`, the output after the first line is
exactly the bytes of `s` (followed by the final newline the format string
appends), with no suppression or transformation, also when `s` is empty. -/
theorem mainRun_payload_verbatim (prog x s : String) (rest : List String)
    (SlangParseLang : SlangString → SlangParseLangResult)
    (h : (SlangParseLang (mkLangCode x)).tabstr = some s) :
    (mainRun (prog :: x :: rest) SlangParseLang).outcome =
      some (("SlangParseLang(\x27" ++ x ++ "\x27): code = " ++
        toString (SlangParseLang (mkLangCode x)).errcode.val ++ "\n") ++ (s ++ "\n"), 0) := by
  simp only [mainRun, h]
  simp [String.append_assoc]

/-- Witness for C5 with the empty payload: the second line is the empty string,
printed as-is. -/
theorem mainRun_payload_verbatim_witness :
    (mainRun ["slang", "en"] mockErrEmpty).outcome =
      some ("SlangParseLang(\x27en\x27): code = -1\n\n", 0) :=
  (mainRun_payload_verbatim "slang" "en" "" [] mockErrEmpty rfl).trans (by decide)

/-- C6: with at least one supplied argument, the callee `SlangParseLang` is
invoked exactly once per run, whatever it returns. -/
theorem mainRun_calls_once (prog x : String) (rest : List String)
    (SlangParseLang : SlangString → SlangParseLangResult) :
    (mainRun (prog :: x :: rest) SlangParseLang).calleeCalls = 1 := by
  cases h : (SlangParseLang (mkLangCode x)).tabstr <;> simp [mainRun, h]

/-- C7: with the single supplied argument being the empty string and a callee
answering `(errcode = -1, tabstr = "")`, the call path is taken (one callee
invocation, not the usage line) and the full output is
`SlangParseLang(''): code = -1` followed by an empty line, exit code 0. -/
theorem mainRun_empty_arg (prog : String)
    (SlangParseLang : SlangString → SlangParseLangResult)
    (h1 : (SlangParseLang (mkLangCode "")).errcode.val = -1)
    (h2 : (SlangParseLang (mkLangCode "")).tabstr = some "") :
    mainRun [prog, ""] SlangParseLang =
      ⟨1, 0, some ("SlangParseLang(\x27\x27): code = -1\n\n", 0)⟩ := by
  simp only [mainRun, h2, h1]
  decide

/-- Witness for C7 with the mock callee returning `(-1, "")`. -/
theorem mainRun_empty_arg_witness :
    mainRun ["slang", ""] mockErrEmpty =
      ⟨1, 0, some ("SlangParseLang(\x27\x27): code = -1\n\n", 0)⟩ :=
  mainRun_empty_arg "slang" mockErrEmpty rfl rfl

/-- C8: in the boundary types, every `SlangInt8` error code lies in the byte
range from -128 to 127, and the signed length field of the view built by the
caller holds the byte count of the argument. -/
theorem boundary_types_ranges :
    (∀ e : SlangInt8, -128 ≤ e.val ∧ e.val ≤ 127) ∧
      (∀ x : String, (mkLangCode x).n = (x.utf8ByteSize : Int)) :=
  ⟨fun e => e.property, fun _ => rfl⟩

/-- C9: on the call path the run is well-defined exactly when the callee
returns a non-NULL `tabstr`; a NULL payload reaches the undefined `%s`
dereference, modelled by the `none` outcome. -/
theorem mainRun_defined_iff_nonnull (prog x : String) (rest : List String)
    (SlangParseLang : SlangString → SlangParseLangResult) :
    (mainRun (prog :: x :: rest) SlangParseLang).outcome = none ↔
      (SlangParseLang (mkLangCode x)).tabstr = none := by
  cases h : (SlangParseLang (mkLangCode x)).tabstr <;> simp [mainRun, h]

/-- C10: two runs agreeing on the program name, the first argument, and the
callee result at the constructed view produce identical behavior, whatever
additional arguments follow: `argv` entries past the first argument are never
read. -/
theorem mainRun_ignores_extra_args (prog x : String) (r₁ r₂ : List String)
    (c₁ c₂ : SlangString → SlangParseLangResult)
    (h : c₁ (mkLangCode x) = c₂ (mkLangCode x)) :
    mainRun (prog :: x :: r₁) c₁ = mainRun (prog :: x :: r₂) c₂ := by
  simp only [mainRun]
  rw [h]

/-- Witness for C10: the same callee, with and without a trailing extra
argument, gives the same concrete behavior. -/
theorem mainRun_ignores_extra_args_witness :
    mainRun ["slang", "en"] mockOk = mainRun ["slang", "en", "zh"] mockOk :=
  mainRun_ignores_extra_args "slang" "en" [] ["zh"] mockOk mockOk rfl
